import Mathlib

/-!
Shallow embedding of the product CRUD service: the product data model and
field validators of `src/api/models/product.py`, and the route-level
create / read / update / delete / list operations of
`src/api/routes/products.py`, together with a model of the external
relational store (the collaborator) as described by the specification:
it persists rows, enforces the unique indexes on `Name` and
`ProductNumber` and the foreign key from sales-order lines, and reports
the violated constraint's identifier inside a raw error message.
-/

/-- A fixed-point decimal value `mantissa / 10 ^ exp`, modelling the
Python `decimal.Decimal` values carried by payloads. -/
structure Dec where
  mantissa : Int
  exp : Nat
  deriving DecidableEq

/-- Rounding of `num / den` to the nearest integer with ties to even,
the default `ROUND_HALF_EVEN` of `Decimal.quantize`. -/
def roundHalfEven (num den : Int) : Int :=
  let q := num.fdiv den
  let r := num.fmod den
  if 2 * r < den then q
  else if den < 2 * r then q + 1
  else if q % 2 = 0 then q else q + 1

/-- `Decimal(str(v)).quantize(Decimal("0.01"))` from `validate_weight`:
the value rounded to exactly two decimal places. -/
def Dec.quantize2 (d : Dec) : Dec :=
  if d.exp ≤ 2 then ⟨d.mantissa * (10 : Int) ^ (2 - d.exp), 2⟩
  else ⟨roundHalfEven d.mantissa ((10 : Int) ^ (d.exp - 2)), 2⟩

/-- `validate_name` (`ProductBase`, `product.py` lines 78-82). -/
def validate_name (v : String) : Except String String :=
  if v.length > 100 then .error "Name must be 100 characters or less" else .ok v

/-- `validate_product_number` (`product.py` lines 84-88). -/
def validate_product_number (v : String) : Except String String :=
  if v.length > 50 then .error "ProductNumber must be 50 characters or less" else .ok v

/-- `validate_color` (`product.py` lines 90-94). -/
def validate_color (v : Option String) : Except String (Option String) :=
  match v with
  | some s => if s.length > 30 then .error "Color must be 30 characters or less" else .ok (some s)
  | none => .ok none

/-- `validate_photo_filename` (`product.py` lines 96-100). -/
def validate_photo_filename (v : Option String) : Except String (Option String) :=
  match v with
  | some s =>
    if s.length > 100 then .error "ThumbnailPhotoFileName must be 100 characters or less"
    else .ok (some s)
  | none => .ok none

/-- `validate_weight` (`product.py` lines 102-107): a present weight is
quantized to two decimal places, never rejected; an absent one is kept. -/
def validate_weight (v : Option Dec) : Option Dec :=
  match v with
  | some d => some d.quantize2
  | none => none

/-- The `ProductSize` string enumeration (`product.py` lines 17-40). -/
inductive ProductSize where
  | XS | S | M | L
  | s38 | s40 | s42 | s44 | s46 | s48 | s50 | s52 | s54 | s56 | s58 | s60 | s62 | s70
  deriving DecidableEq

/-- The string value stored for each `ProductSize` member. -/
def ProductSize.value : ProductSize → String
  | .XS => "XS"
  | .S => "S"
  | .M => "M"
  | .L => "L"
  | .s38 => "38"
  | .s40 => "40"
  | .s42 => "42"
  | .s44 => "44"
  | .s46 => "46"
  | .s48 => "48"
  | .s50 => "50"
  | .s52 => "52"
  | .s54 => "54"
  | .s56 => "56"
  | .s58 => "58"
  | .s60 => "60"
  | .s62 => "62"
  | .s70 => "70"

/-- The payload of a create request: the `ProductBase` fields, which is
all `ProductCreate` adds nothing to (`product.py` lines 52-75, 247-253).
Timestamps are modelled as integers, image bytes as a list of byte
values. -/
structure ProductCreateInput where
  Name : String
  ProductNumber : String
  Color : Option String
  StandardCost : Dec
  ListPrice : Dec
  Size : Option ProductSize
  Weight : Option Dec
  SellStartDate : Int
  SellEndDate : Option Int
  DiscontinuedDate : Option Int
  ThumbNailPhoto : Option (List Nat)
  ThumbnailPhotoFileName : Option String
  ProductModelID : Option Int
  ProductCategoryID : Option Int
  deriving DecidableEq

/-- Request-body validation of a create payload: each `@validator` of
`ProductBase` runs on its own field; `Weight` is normalized and never
rejected.  (Pydantic collects per-field errors; here the first failing
field's message is returned, which keeps the same accept/reject
behaviour.) -/
def validateProductCreate (p : ProductCreateInput) : Except String ProductCreateInput := do
  let name ← validate_name p.Name
  let number ← validate_product_number p.ProductNumber
  let color ← validate_color p.Color
  let filename ← validate_photo_filename p.ThumbnailPhotoFileName
  let weight := validate_weight p.Weight
  .ok { p with Name := name, ProductNumber := number, Color := color,
               ThumbnailPhotoFileName := filename, Weight := weight }

/-- A stored row of `SalesLT.Product` (the `Product` table model,
`product.py` lines 215-244): the `ProductBase` fields plus the
system-managed `ProductID`, `rowguid` and `ModifiedDate`.  `Size` is
stored by its string value (the column is a non-native enum). -/
structure Product where
  ProductID : Int
  Name : String
  ProductNumber : String
  Color : Option String
  StandardCost : Dec
  ListPrice : Dec
  Size : Option String
  Weight : Option Dec
  SellStartDate : Int
  SellEndDate : Option Int
  DiscontinuedDate : Option Int
  ThumbNailPhoto : Option (List Nat)
  ThumbnailPhotoFileName : Option String
  ProductModelID : Option Int
  ProductCategoryID : Option Int
  rowguid : String
  ModifiedDate : Int
  deriving DecidableEq

/-- The payload of a partial update (`ProductUpdate`, `product.py` lines
256-272): every field optional, no validators, and no `ProductID`,
`rowguid`, `ModifiedDate`, `ThumbNailPhoto` or `ThumbnailPhotoFileName`
field at all.  An outer `none` is a field absent from the payload
(excluded by `model_dump(exclude_unset=True)`); for fields nullable in
storage the supplied value is itself optional. -/
structure ProductUpdate where
  Name : Option String := none
  ProductNumber : Option String := none
  Color : Option (Option String) := none
  StandardCost : Option Dec := none
  ListPrice : Option Dec := none
  Size : Option (Option String) := none
  Weight : Option (Option Dec) := none
  SellStartDate : Option Int := none
  SellEndDate : Option (Option Int) := none
  DiscontinuedDate : Option (Option Int) := none
  ProductModelID : Option (Option Int) := none
  ProductCategoryID : Option (Option Int) := none
  deriving DecidableEq

/-- The empty partial payload: `model_dump(exclude_unset=True)` yields
an empty dict. -/
def ProductUpdate.empty : ProductUpdate := {}

/-- The update merge of `update_product` (`products.py` lines 266-273):
each field present in the payload is written onto the stored row with
`setattr` — a plain attribute assignment on a table model, on which no
`ProductBase` validator runs — then `ModifiedDate` is refreshed. -/
def applyUpdate (db_product : Product) (u : ProductUpdate) (now : Int) : Product :=
  { db_product with
    Name := u.Name.getD db_product.Name
    ProductNumber := u.ProductNumber.getD db_product.ProductNumber
    Color := u.Color.getD db_product.Color
    StandardCost := u.StandardCost.getD db_product.StandardCost
    ListPrice := u.ListPrice.getD db_product.ListPrice
    Size := u.Size.getD db_product.Size
    Weight := u.Weight.getD db_product.Weight
    SellStartDate := u.SellStartDate.getD db_product.SellStartDate
    SellEndDate := u.SellEndDate.getD db_product.SellEndDate
    DiscontinuedDate := u.DiscontinuedDate.getD db_product.DiscontinuedDate
    ProductModelID := u.ProductModelID.getD db_product.ProductModelID
    ProductCategoryID := u.ProductCategoryID.getD db_product.ProductCategoryID
    ModifiedDate := now }

/-- The state of the external store: the product rows, and for each
`ProductID` the number of dependent `SalesOrderDetail` lines. -/
structure DB where
  products : List Product
  orderLinesFor : Int → Nat

/-- Auxiliary for substring search: does `l` start with `sub`? -/
def charsStartWith : List Char → List Char → Bool
  | _, [] => true
  | [], _ :: _ => false
  | a :: as, b :: bs => a == b && charsStartWith as bs

/-- Auxiliary for substring search: does `sub` occur inside `l`? -/
def charsContain : List Char → List Char → Bool
  | [], sub => sub.isEmpty
  | a :: as, sub => charsStartWith (a :: as) sub || charsContain as sub

/-- The Python `sub in msg` test on strings, as used on `str(e.orig)`. -/
def containsSub (msg sub : String) : Bool := charsContain msg.toList sub.toList

/-- A single-quote character, used by the f-string conflict messages. -/
def squo : String := String.singleton (Char.ofNat 39)

/-- Python string interpolation of an optional string: `None` when
absent. -/
def pyStr : Option String → String
  | some s => s
  | none => "None"

/-- Modelled from the spec: the external store's insert commit.  The spec
scopes the relational store out as a collaborator that enforces the
unique indexes on `Name` and `ProductNumber` and "reports constraint
identifiers on violation"; the raw message carries the identifier of the
one violated constraint. -/
def DB.commitInsert (db : DB) (p : Product) : Except String DB :=
  if db.products.any (fun q => q.Name == p.Name) then
    .error "Violation of UNIQUE KEY constraint AK_Product_Name"
  else if db.products.any (fun q => q.ProductNumber == p.ProductNumber) then
    .error "Violation of UNIQUE KEY constraint AK_Product_ProductNumber"
  else
    .ok { db with products := db.products ++ [p] }

/-- Modelled from the spec: the store's update commit for the row keyed
by `p.ProductID`, enforcing the same unique indexes against all other
rows. -/
def DB.commitUpdate (db : DB) (p : Product) : Except String DB :=
  if db.products.any (fun q => q.ProductID != p.ProductID && q.Name == p.Name) then
    .error "Violation of UNIQUE KEY constraint AK_Product_Name"
  else if db.products.any (fun q => q.ProductID != p.ProductID && q.ProductNumber == p.ProductNumber) then
    .error "Violation of UNIQUE KEY constraint AK_Product_ProductNumber"
  else
    .ok { db with products := db.products.map (fun q => if q.ProductID == p.ProductID then p else q) }

/-- Modelled from the spec: the store's delete commit, blocked by the
foreign key from dependent sales-order lines. -/
def DB.commitDelete (db : DB) (id : Int) : Except String DB :=
  if 0 < db.orderLinesFor id then
    .error "The DELETE statement conflicted with the REFERENCE constraint FK_SalesOrderDetail_Product_ProductID"
  else
    .ok { db with products := db.products.filter (fun q => q.ProductID != id) }

/-- An HTTP error outcome raised by a route (`HTTPException`). -/
inductive HTTPError where
  | notFound (detail : String)
  | conflict (detail : String)
  | internal (detail : String)
  deriving DecidableEq

/-- A value attached to a log record's `extra` context. -/
inductive LogCtx where
  | str (v : String)
  | optStr (v : Option String)
  | int (v : Int)
  | createPayload (p : ProductCreateInput)
  | updatePayload (u : ProductUpdate)
  deriving DecidableEq

/-- A log record emitted by a route handler. -/
structure LogEntry where
  level : String
  message : String
  context : List (String × LogCtx)
  deriving DecidableEq

/-- The `IntegrityError` handler of `create_product` (`products.py`
lines 158-202): the raw store message is classified by substring match
on the constraint identifier; the result is the HTTP error raised and
the log record emitted. -/
def createIntegrityHandler (product : ProductCreateInput) (error_msg : String) :
    HTTPError × LogEntry :=
  if containsSub error_msg "AK_Product_Name" then
    (.conflict ("A product with the name " ++ squo ++ product.Name ++ squo ++ " already exists."),
     { level := "warning"
       message := "Attempted to create product with duplicate name: " ++ product.Name
       context := [("product_name", .str product.Name),
                   ("error_type", .str "duplicate_name")] })
  else if containsSub error_msg "AK_Product_ProductNumber" then
    (.conflict ("A product with the product number " ++ squo ++ product.ProductNumber ++ squo
        ++ " already exists."),
     { level := "warning"
       message := "Attempted to create product with duplicate number: " ++ product.ProductNumber
       context := [("product_number", .str product.ProductNumber),
                   ("error_type", .str "duplicate_number")] })
  else
    (.internal "An unexpected database constraint violation occurred.",
     { level := "error"
       message := "Unexpected database constraint violation while creating product: " ++ error_msg
       context := [("product_data", .createPayload product),
                   ("error_type", .str "unknown_constraint"),
                   ("error_details", .str error_msg)] })

/-- The `IntegrityError` handler of `update_product` (`products.py`
lines 281-332). -/
def updateIntegrityHandler (product_id : Int) (product : ProductUpdate) (error_msg : String) :
    HTTPError × LogEntry :=
  if containsSub error_msg "AK_Product_Name" then
    (.conflict ("A product with the name " ++ squo ++ pyStr product.Name ++ squo ++ " already exists."),
     { level := "warning"
       message := "Attempted to update product " ++ toString product_id
         ++ " with duplicate name: " ++ pyStr product.Name
       context := [("product_id", .int product_id),
                   ("new_name", .optStr product.Name),
                   ("error_type", .str "duplicate_name_update")] })
  else if containsSub error_msg "AK_Product_ProductNumber" then
    (.conflict ("A product with the product number " ++ squo ++ pyStr product.ProductNumber ++ squo
        ++ " already exists."),
     { level := "warning"
       message := "Attempted to update product " ++ toString product_id
         ++ " with duplicate number: " ++ pyStr product.ProductNumber
       context := [("product_id", .int product_id),
                   ("new_number", .optStr product.ProductNumber),
                   ("error_type", .str "duplicate_number_update")] })
  else
    (.internal "An unexpected database constraint violation occurred.",
     { level := "error"
       message := "Unexpected constraint violation while updating product "
         ++ toString product_id ++ ": " ++ error_msg
       context := [("product_id", .int product_id),
                   ("update_data", .updatePayload product),
                   ("error_type", .str "unknown_constraint"),
                   ("error_details", .str error_msg)] })

/-- The ordering used by `order_by(Product.ProductID)`. -/
def byID (a b : Product) : Prop := a.ProductID ≤ b.ProductID

instance : DecidableRel byID := fun a b => Int.decLe a.ProductID b.ProductID

instance : IsTotal Product byID := ⟨fun a b => Int.le_total a.ProductID b.ProductID⟩

instance : IsTrans Product byID := ⟨fun _ _ _ => Int.le_trans⟩

/-- `ORDER BY ProductID` ascending over the stored rows. -/
def sortByID (l : List Product) : List Product := List.insertionSort byID l

/-- `GET /products` (`list_products`, `products.py` lines 34-56):
`select(Product).order_by(Product.ProductID).offset(skip).limit(limit)`. -/
def list_products (db : DB) (skip limit : Nat) : List Product :=
  ((sortByID db.products).drop skip).take limit

/-- `GET /products/{id}` (`get_product`, `products.py` lines 74-98):
primary-key lookup, 404 with the fixed detail when absent. -/
def get_product (db : DB) (product_id : Int) : Except HTTPError Product :=
  match db.products.find? (fun q => q.ProductID == product_id) with
  | none => .error (.notFound ("Product with ID " ++ toString product_id ++ " not found"))
  | some p => .ok p

/-- The row inserted by `create_product` (`products.py` lines 141-156):
the validated payload plus the store-assigned `ProductID`, the fresh
`uuid4` as `rowguid`, and `ModifiedDate := now`.  (`Product.model_validate`
re-runs the `ProductBase` validators on the already-validated data, on
which they are the identity.) -/
def buildProduct (p : ProductCreateInput) (newId : Int) (guid : String) (now : Int) : Product :=
  { ProductID := newId
    Name := p.Name
    ProductNumber := p.ProductNumber
    Color := p.Color
    StandardCost := p.StandardCost
    ListPrice := p.ListPrice
    Size := p.Size.map ProductSize.value
    Weight := p.Weight
    SellStartDate := p.SellStartDate
    SellEndDate := p.SellEndDate
    DiscontinuedDate := p.DiscontinuedDate
    ThumbNailPhoto := p.ThumbNailPhoto
    ThumbnailPhotoFileName := p.ThumbnailPhotoFileName
    ProductModelID := p.ProductModelID
    ProductCategoryID := p.ProductCategoryID
    rowguid := guid
    ModifiedDate := now }

/-- Outcome of `POST /products`: created row, a 422 request-validation
rejection, or an HTTP error from the integrity handler. -/
inductive CreateOutcome where
  | created (p : Product)
  | invalid (msg : String)
  | failed (e : HTTPError)
  deriving DecidableEq

/-- `POST /products`: request-body validation (a 422 on failure happens
before the route body runs), then `create_product` (`products.py` lines
119-202).  `newId` models the store-assigned identity, `guid` the fresh
`uuid4`, `now` the clock reading.  On an integrity failure the unit of
work is rolled back: the returned state is the unchanged `db`. -/
def create_product (db : DB) (raw : ProductCreateInput) (newId : Int) (guid : String) (now : Int) :
    CreateOutcome × DB :=
  match validateProductCreate raw with
  | .error msg => (.invalid msg, db)
  | .ok product =>
    let db_product := buildProduct product newId guid now
    match db.commitInsert db_product with
    | .ok db' => (.created db_product, db')
    | .error e => (.failed (createIntegrityHandler product e).1, db)

/-- Outcome of `PUT /products/{id}`. -/
inductive UpdateOutcome where
  | ok (p : Product)
  | err (e : HTTPError)
  deriving DecidableEq

/-- `PUT /products/{id}` (`update_product`, `products.py` lines 238-332):
primary-key lookup (404 when absent), verbatim merge of the supplied
fields plus a refreshed `ModifiedDate`, commit, and on an integrity
failure a rollback (state unchanged) with the classified HTTP error. -/
def update_product (db : DB) (product_id : Int) (product : ProductUpdate) (now : Int) :
    UpdateOutcome × DB :=
  match db.products.find? (fun q => q.ProductID == product_id) with
  | none => (.err (.notFound ("Product with ID " ++ toString product_id ++ " not found")), db)
  | some db_product =>
    let updated := applyUpdate db_product product now
    match db.commitUpdate updated with
    | .ok db' => (.ok updated, db')
    | .error e => (.err (updateIntegrityHandler product_id product e).1, db)

/-- Outcome of `DELETE /products/{id}`. -/
inductive DeleteOutcome where
  | noContent
  | err (e : HTTPError)
  deriving DecidableEq

/-- `DELETE /products/{id}` (`delete_product`, `products.py` lines
360-416): primary-key lookup (404 when absent), delete commit, and on an
integrity failure a rollback with the classified HTTP error. -/
def delete_product (db : DB) (product_id : Int) : DeleteOutcome × DB :=
  match db.products.find? (fun q => q.ProductID == product_id) with
  | none => (.err (.notFound ("Product with ID " ++ toString product_id ++ " not found")), db)
  | some _ =>
    match db.commitDelete product_id with
    | .ok db' => (.noContent, db')
    | .error e =>
      if containsSub e "FK_SalesOrderDetail_Product_ProductID" then
        (.err (.conflict "Cannot delete product as it has associated sales orders"), db)
      else
        (.err (.internal "An unexpected error occurred while deleting the product"), db)

/-- The invariant the store maintains across commits: primary keys and
both unique indexes hold over the stored rows. -/
def DB.Consistent (db : DB) : Prop :=
  db.products.Pairwise (fun a b =>
    a.ProductID ≠ b.ProductID ∧ a.Name ≠ b.Name ∧ a.ProductNumber ≠ b.ProductNumber)

/-- The primary-key part of the store invariant. -/
def DB.UniqueIDs (db : DB) : Prop :=
  db.products.Pairwise (fun a b => a.ProductID ≠ b.ProductID)

/-! Concrete sample values used by witnesses. -/

/-- A sample stored product row. -/
def sampleProduct : Product :=
  { ProductID := 1
    Name := "Widget"
    ProductNumber := "W-1"
    Color := none
    StandardCost := ⟨100, 2⟩
    ListPrice := ⟨200, 2⟩
    Size := none
    Weight := none
    SellStartDate := 0
    SellEndDate := none
    DiscontinuedDate := none
    ThumbNailPhoto := none
    ThumbnailPhotoFileName := none
    ProductModelID := none
    ProductCategoryID := none
    rowguid := "guid-1"
    ModifiedDate := 0 }

/-- A store holding the one sample row, with no dependent order lines. -/
def sampleDB : DB := { products := [sampleProduct], orderLinesFor := fun _ => 0 }

/-- A store holding the one sample row, every product having one
dependent order line. -/
def sampleDBDep : DB := { products := [sampleProduct], orderLinesFor := fun _ => 1 }

/-- A store holding no rows. -/
def emptyDB : DB := { products := [], orderLinesFor := fun _ => 0 }

/-- A 101-character name, one character over the `Name` bound. -/
def longName : String := String.mk (List.replicate 101 'a')

/-- A valid sample create payload. -/
def sampleCreate : ProductCreateInput :=
  { Name := "Gadget"
    ProductNumber := "G-1"
    Color := some "Silver"
    StandardCost := ⟨191215, 2⟩
    ListPrice := ⟨231999, 2⟩
    Size := some .s38
    Weight := some ⟨225, 1⟩
    SellStartDate := 10
    SellEndDate := none
    DiscontinuedDate := none
    ThumbNailPhoto := none
    ThumbnailPhotoFileName := some "gadget.jpg"
    ProductModelID := some 19
    ProductCategoryID := some 6 }

/-! Helper lemmas. -/

/-- The quantized value always has exponent 2. -/
theorem Dec.quantize2_exp (d : Dec) : d.quantize2.exp = 2 := by
  unfold Dec.quantize2
  split <;> rfl

/-- Quantizing to two decimal places is idempotent. -/
theorem Dec.quantize2_idem (d : Dec) : d.quantize2.quantize2 = d.quantize2 := by
  cases hq : d.quantize2 with
  | mk m e =>
    have he : e = 2 := by
      have := Dec.quantize2_exp d
      rw [hq] at this
      exact this
    subst he
    show Dec.quantize2 ⟨m, 2⟩ = ⟨m, 2⟩
    simp [Dec.quantize2]

/-- Claim C9: weight normalization is idempotent —
`normalize (normalize w) = normalize w` — a present value is only
rounded to two decimal places, never rejected, and an absent weight is
left absent. -/
theorem weight_normalization_idempotent :
    (∀ w : Option Dec, validate_weight (validate_weight w) = validate_weight w) ∧
    (∀ d : Dec, validate_weight (some d) = some d.quantize2) ∧
    validate_weight none = none := by
  refine ⟨fun w => ?_, fun d => rfl, rfl⟩
  cases w with
  | none => rfl
  | some d => simp [validate_weight, Dec.quantize2_idem]

/-- Claim C3: every name of length at most 100 and every product number
of length at most 50 passes its field validator unchanged; a name of
length 101 or a product number of length 51 is rejected with the
field-level error message. -/
theorem name_number_length_bounds :
    (∀ s : String, s.length ≤ 100 → validate_name s = .ok s) ∧
    (∀ s : String, s.length = 101 →
      validate_name s = .error "Name must be 100 characters or less") ∧
    (∀ s : String, s.length ≤ 50 → validate_product_number s = .ok s) ∧
    (∀ s : String, s.length = 51 →
      validate_product_number s = .error "ProductNumber must be 50 characters or less") := by
  refine ⟨fun s h => ?_, fun s h => ?_, fun s h => ?_, fun s h => ?_⟩ <;>
    simp [validate_name, validate_product_number] <;> omega

/-- Witness for C3 at concrete strings: a 6-character name and a
3-character number pass; a 101-character name and a 51-character number
are rejected. -/
theorem name_number_length_bounds_witness :
    validate_name "Widget" = .ok "Widget" ∧
    validate_name longName = .error "Name must be 100 characters or less" ∧
    validate_product_number "W-1" = .ok "W-1" ∧
    validate_product_number (String.mk (List.replicate 51 'b')) =
      .error "ProductNumber must be 50 characters or less" :=
  ⟨name_number_length_bounds.1 "Widget" (by decide),
   name_number_length_bounds.2.1 longName (by decide),
   name_number_length_bounds.2.2.1 "W-1" (by decide),
   name_number_length_bounds.2.2.2 (String.mk (List.replicate 51 'b')) (by decide)⟩

/-- Claim C7: reading a nonexistent id yields exactly the not-found
outcome, never any other error kind, with detail
`Product with ID <id> not found`. -/
theorem read_missing_yields_not_found (db : DB) (product_id : Int)
    (h : db.products.find? (fun q => q.ProductID == product_id) = none) :
    get_product db product_id =
      .error (.notFound ("Product with ID " ++ toString product_id ++ " not found")) := by
  simp [get_product, h]

/-- Witness for C7: reading id 123 from the empty store. -/
theorem read_missing_yields_not_found_witness :
    get_product emptyDB 123 = .error (.notFound ("Product with ID " ++ toString (123 : Int) ++ " not found")) :=
  read_missing_yields_not_found emptyDB 123 rfl

/-- Claim C8: for every offset and limit the listing is exactly the
window of the identity-sorted rows — the sorted sequence is a
permutation of the stored rows (no filtering), the page skips the first
`skip` of it, holds at most `limit` entries, and is itself ordered by
`ProductID` ascending. -/
theorem list_products_sorted_window (db : DB) (skip limit : Nat) :
    list_products db skip limit = ((sortByID db.products).drop skip).take limit ∧
    (sortByID db.products).Perm db.products ∧
    (sortByID db.products).Sorted byID ∧
    (list_products db skip limit).Sorted byID ∧
    (list_products db skip limit).length ≤ limit := by
  refine ⟨rfl, List.perm_insertionSort byID db.products,
    List.sorted_insertionSort byID db.products, ?_, ?_⟩
  · exact List.Pairwise.sublist
      ((List.take_sublist _ _).trans (List.drop_sublist _ _))
      (List.sorted_insertionSort byID db.products)
  · exact List.length_take_le _ _

/-- Claim C4: deleting a product that has at least one dependent
sales-order line yields the 409 conflict and leaves the store — and so
the product row — unchanged; deleting one with zero dependent lines
succeeds and removes the row. -/
theorem delete_blocked_by_dependent_orders (db : DB) (product_id : Int) (p : Product)
    (hf : db.products.find? (fun q => q.ProductID == product_id) = some p) :
    (0 < db.orderLinesFor product_id →
      delete_product db product_id =
        (.err (.conflict "Cannot delete product as it has associated sales orders"), db)) ∧
    (db.orderLinesFor product_id = 0 →
      (delete_product db product_id).1 = .noContent ∧
      (delete_product db product_id).2.products =
        db.products.filter (fun q => q.ProductID != product_id) ∧
      (delete_product db product_id).2.products.find?
        (fun q => q.ProductID == product_id) = none) := by
  constructor
  · intro hdep
    have hc : containsSub
        "The DELETE statement conflicted with the REFERENCE constraint FK_SalesOrderDetail_Product_ProductID"
        "FK_SalesOrderDetail_Product_ProductID" = true := by decide
    simp [delete_product, hf, DB.commitDelete, hdep, hc]
  · intro hdep
    have hnot : ¬ 0 < db.orderLinesFor product_id := by omega
    refine ⟨?_, ?_, ?_⟩
    · simp [delete_product, hf, DB.commitDelete, hnot]
    · simp [delete_product, hf, DB.commitDelete, hnot]
    · simp only [delete_product, hf, DB.commitDelete, if_neg hnot]
      rw [List.find?_eq_none]
      intro x hx
      have := (List.mem_filter.mp hx).2
      simp only [bne_iff_ne, ne_eq] at this
      simp [this]

/-- The uniqueness relation of `DB.Consistent` is symmetric. -/
theorem consistentRel_symm :
    Symmetric (fun a b : Product =>
      a.ProductID ≠ b.ProductID ∧ a.Name ≠ b.Name ∧ a.ProductNumber ≠ b.ProductNumber) :=
  fun _ _ h => ⟨h.1.symm, h.2.1.symm, h.2.2.symm⟩

/-- A successful update commit replaces exactly the row keyed by the
updated product's identity. -/
theorem DB.commitUpdate_ok_products {db : DB} {p : Product} {db' : DB}
    (h : db.commitUpdate p = .ok db') :
    db'.products = db.products.map (fun q => if q.ProductID == p.ProductID then p else q) := by
  unfold DB.commitUpdate at h
  split at h
  · simp at h
  · split at h
    · simp at h
    · cases h; rfl

/-- Claim C5: an update with the empty partial payload succeeds on a
consistent store and changes only `ModifiedDate`: the stored entity keeps
every other field and gets `ModifiedDate` refreshed to the clock
reading. -/
theorem empty_update_changes_only_modified_date (db : DB) (product_id now : Int) (p : Product)
    (hf : db.products.find? (fun q => q.ProductID == product_id) = some p)
    (hc : db.Consistent) :
    (update_product db product_id ProductUpdate.empty now).1 = .ok { p with ModifiedDate := now } ∧
    (update_product db product_id ProductUpdate.empty now).2.products =
      db.products.map
        (fun q => if q.ProductID == p.ProductID then { p with ModifiedDate := now } else q) ∧
    ({ p with ModifiedDate := now } : Product).ProductID = p.ProductID ∧
    ({ p with ModifiedDate := now } : Product).Name = p.Name ∧
    ({ p with ModifiedDate := now } : Product).ProductNumber = p.ProductNumber ∧
    ({ p with ModifiedDate := now } : Product).Color = p.Color ∧
    ({ p with ModifiedDate := now } : Product).StandardCost = p.StandardCost ∧
    ({ p with ModifiedDate := now } : Product).ListPrice = p.ListPrice ∧
    ({ p with ModifiedDate := now } : Product).Size = p.Size ∧
    ({ p with ModifiedDate := now } : Product).Weight = p.Weight ∧
    ({ p with ModifiedDate := now } : Product).SellStartDate = p.SellStartDate ∧
    ({ p with ModifiedDate := now } : Product).SellEndDate = p.SellEndDate ∧
    ({ p with ModifiedDate := now } : Product).DiscontinuedDate = p.DiscontinuedDate ∧
    ({ p with ModifiedDate := now } : Product).ThumbNailPhoto = p.ThumbNailPhoto ∧
    ({ p with ModifiedDate := now } : Product).ThumbnailPhotoFileName = p.ThumbnailPhotoFileName ∧
    ({ p with ModifiedDate := now } : Product).ProductModelID = p.ProductModelID ∧
    ({ p with ModifiedDate := now } : Product).ProductCategoryID = p.ProductCategoryID ∧
    ({ p with ModifiedDate := now } : Product).rowguid = p.rowguid ∧
    ({ p with ModifiedDate := now } : Product).ModifiedDate = now := by
  have hmem : p ∈ db.products := List.mem_of_find?_eq_some hf
  have hall := List.Pairwise.forall consistentRel_symm hc
  have h1 : db.products.any (fun q => q.ProductID != p.ProductID && q.Name == p.Name) = false := by
    rw [List.any_eq_false]
    intro q hq
    simp only [Bool.and_eq_true, bne_iff_ne, ne_eq, beq_iff_eq, not_and]
    intro hid hname
    have hqp : q ≠ p := fun h => hid (congrArg Product.ProductID h)
    exact (hall hq hmem hqp).2.1 hname
  have h2 : db.products.any
      (fun q => q.ProductID != p.ProductID && q.ProductNumber == p.ProductNumber) = false := by
    rw [List.any_eq_false]
    intro q hq
    simp only [Bool.and_eq_true, bne_iff_ne, ne_eq, beq_iff_eq, not_and]
    intro hid hnum
    have hqp : q ≠ p := fun h => hid (congrArg Product.ProductID h)
    exact (hall hq hmem hqp).2.2 hnum
  have happ : applyUpdate p ProductUpdate.empty now = { p with ModifiedDate := now } := rfl
  refine ⟨?_, ?_, rfl, rfl, rfl, rfl, rfl, rfl, rfl, rfl, rfl, rfl, rfl, rfl, rfl, rfl, rfl,
    rfl, rfl⟩
  · simp [update_product, hf, happ, DB.commitUpdate, h1, h2]
  · simp [update_product, hf, happ, DB.commitUpdate, h1, h2]

/-- Any observation of a stored row that the update merge cannot change
is preserved, row by row, by the whole update operation, whatever the
payload and whatever the outcome (404, conflict rollback, or success). -/
theorem update_map_field {β : Type} (db : DB) (product_id now : Int) (u : ProductUpdate)
    (hu : db.UniqueIDs) (f : Product → β)
    (hpres : ∀ q, f (applyUpdate q u now) = f q) :
    (update_product db product_id u now).2.products.map f = db.products.map f := by
  unfold update_product
  cases hfind : db.products.find? (fun q => q.ProductID == product_id) with
  | none => rfl
  | some p =>
    cases hcu : db.commitUpdate (applyUpdate p u now) with
    | error e => simp [hcu]
    | ok db' =>
      simp only [hcu]
      rw [DB.commitUpdate_ok_products hcu, List.map_map]
      apply List.map_congr_left
      intro q hq
      have hmem : p ∈ db.products := List.mem_of_find?_eq_some hfind
      by_cases hid : (q.ProductID == (applyUpdate p u now).ProductID) = true
      · have hqid : q.ProductID = p.ProductID := by
          simpa [applyUpdate] using hid
        have hqp : q = p := by
          by_contra hne
          exact (List.Pairwise.forall (fun _ _ h => h.symm) hu hq hmem hne) hqid
        subst hqp
        simp [Function.comp, hid, hpres q]
      · simp [Function.comp, hid]

/-- Claim C6: no partial update, whatever its payload, changes the
`ProductID` or `rowguid` of any stored row, and creation assigns the
fresh `rowguid` and the store-assigned identity to the row it stores. -/
theorem product_id_rowguid_immutable (db : DB) (product_id now newId cnow : Int)
    (u : ProductUpdate) (raw : ProductCreateInput) (guid : String)
    (hu : db.UniqueIDs) :
    (update_product db product_id u now).2.products.map (fun q => (q.ProductID, q.rowguid)) =
      db.products.map (fun q => (q.ProductID, q.rowguid)) ∧
    (∀ p, (create_product db raw newId guid cnow).1 = .created p →
      p.rowguid = guid ∧ p.ProductID = newId) := by
  constructor
  · exact update_map_field db product_id now u hu _ (fun _ => rfl)
  · intro p hp
    cases hv : validateProductCreate raw with
    | error m =>
      simp only [create_product, hv] at hp
      simp at hp
    | ok pc =>
      simp only [create_product, hv] at hp
      cases hci : db.commitInsert (buildProduct pc newId guid cnow) with
      | error e => rw [hci] at hp; simp at hp
      | ok db' =>
        rw [hci] at hp
        simp only [CreateOutcome.created.injEq] at hp
        rw [← hp]
        exact ⟨rfl, rfl⟩

/-- Claim C10: the update payload schema has no thumbnail fields, so no
partial update, whatever its payload, changes the stored thumbnail bytes
or thumbnail filename of any row. -/
theorem update_preserves_thumbnails (db : DB) (product_id now : Int) (u : ProductUpdate)
    (hu : db.UniqueIDs) :
    (update_product db product_id u now).2.products.map
        (fun q => (q.ThumbNailPhoto, q.ThumbnailPhotoFileName)) =
      db.products.map (fun q => (q.ThumbNailPhoto, q.ThumbnailPhotoFileName)) :=
  update_map_field db product_id now u hu _ (fun _ => rfl)

/-- A name accepted by `validate_name` is returned unchanged and obeys
the length bound. -/
theorem validate_name_ok {v s : String} (h : validate_name v = .ok s) :
    s = v ∧ v.length ≤ 100 := by
  unfold validate_name at h
  split at h
  · simp at h
  · next hcond => cases h; exact ⟨rfl, by omega⟩

/-- A product number accepted by `validate_product_number` is returned
unchanged and obeys the length bound. -/
theorem validate_product_number_ok {v s : String} (h : validate_product_number v = .ok s) :
    s = v ∧ v.length ≤ 50 := by
  unfold validate_product_number at h
  split at h
  · simp at h
  · next hcond => cases h; exact ⟨rfl, by omega⟩

/-- A color accepted by `validate_color` is returned unchanged and, when
present, obeys the length bound. -/
theorem validate_color_ok {v s : Option String} (h : validate_color v = .ok s) :
    s = v ∧ ∀ c, v = some c → c.length ≤ 30 := by
  cases v with
  | none =>
    simp only [validate_color] at h
    cases h
    exact ⟨rfl, by simp⟩
  | some c =>
    simp only [validate_color] at h
    split at h
    · simp at h
    · next hcond =>
      cases h
      refine ⟨rfl, fun c' hc => ?_⟩
      cases hc
      omega

/-- A filename accepted by `validate_photo_filename` is returned
unchanged and, when present, obeys the length bound. -/
theorem validate_photo_filename_ok {v s : Option String}
    (h : validate_photo_filename v = .ok s) :
    s = v ∧ ∀ c, v = some c → c.length ≤ 100 := by
  cases v with
  | none =>
    simp only [validate_photo_filename] at h
    cases h
    exact ⟨rfl, by simp⟩
  | some c =>
    simp only [validate_photo_filename] at h
    split at h
    · simp at h
    · next hcond =>
      cases h
      refine ⟨rfl, fun c' hc => ?_⟩
      cases hc
      omega

/-- Claim C1 as stated is false on the code: the creation validator
rejects a 101-character name, but a partial update carrying that very
name in its payload is accepted and stores it verbatim — no validator
runs on the update path. -/
theorem validation_differs_create_update_cex :
    validate_name longName = .error "Name must be 100 characters or less" ∧
    (update_product sampleDB 1 { Name := some longName } 5).1 =
      .ok { sampleProduct with Name := longName, ModifiedDate := 5 } := by
  constructor
  · rfl
  · rfl

/-- Claim C1 amended: the `ProductBase` validators run on creation — a
validated create payload obeys every length bound and has its weight
normalized — but a partial update applies each supplied field verbatim:
whenever the update succeeds, every supplied value (name, number, size,
weight, color) is stored exactly as sent, with no validation or
normalization. -/
theorem validation_applies_only_on_create (raw pc : ProductCreateInput)
    (db : DB) (product_id now : Int) (u : ProductUpdate) (p : Product)
    (hv : validateProductCreate raw = .ok pc)
    (hf : db.products.find? (fun q => q.ProductID == product_id) = some p) :
    (pc.Name.length ≤ 100 ∧ pc.ProductNumber.length ≤ 50 ∧
     (∀ c, pc.Color = some c → c.length ≤ 30) ∧
     (∀ fn, pc.ThumbnailPhotoFileName = some fn → fn.length ≤ 100) ∧
     pc.Weight = validate_weight raw.Weight) ∧
    (∀ q, (update_product db product_id u now).1 = .ok q →
      q.Name = u.Name.getD p.Name ∧
      q.ProductNumber = u.ProductNumber.getD p.ProductNumber ∧
      q.Size = u.Size.getD p.Size ∧
      q.Weight = u.Weight.getD p.Weight ∧
      q.Color = u.Color.getD p.Color) := by
  constructor
  · unfold validateProductCreate at hv
    simp only [bind, Except.bind] at hv
    cases hn : validate_name raw.Name with
    | error e => rw [hn] at hv; simp at hv
    | ok name =>
      rw [hn] at hv
      cases hnum : validate_product_number raw.ProductNumber with
      | error e => rw [hnum] at hv; simp at hv
      | ok number =>
        rw [hnum] at hv
        cases hcol : validate_color raw.Color with
        | error e => rw [hcol] at hv; simp at hv
        | ok color =>
          rw [hcol] at hv
          cases hfn : validate_photo_filename raw.ThumbnailPhotoFileName with
          | error e => rw [hfn] at hv; simp at hv
          | ok filename =>
            rw [hfn] at hv
            simp only [Except.ok.injEq] at hv
            obtain ⟨hn1, hn2⟩ := validate_name_ok hn
            obtain ⟨hnum1, hnum2⟩ := validate_product_number_ok hnum
            obtain ⟨hcol1, hcol2⟩ := validate_color_ok hcol
            obtain ⟨hfn1, hfn2⟩ := validate_photo_filename_ok hfn
            rw [← hv]
            subst hn1 hnum1 hcol1 hfn1
            exact ⟨hn2, hnum2, hcol2, hfn2, rfl⟩
  · intro q hq
    simp only [update_product, hf] at hq
    cases hcu : db.commitUpdate (applyUpdate p u now) with
    | error e => rw [hcu] at hq; simp at hq
    | ok db' =>
      rw [hcu] at hq
      simp only [UpdateOutcome.ok.injEq] at hq
      rw [← hq]
      exact ⟨rfl, rfl, rfl, rfl, rfl⟩

/-- Claim C2: a store failure whose raw message carries the unique-name
constraint identifier is translated to the 409 conflict naming the
duplicate name; one carrying the unique-product-number identifier (the
two identifiers never occur together in one violation report) to the 409
conflict naming the number; and any other constraint identifier to an
error-level log record holding the full context — the whole input
payload and the raw message — while the caller sees only the constant
generic internal-error detail, with no internal detail in the response;
this holds for the create handler and the update handler alike. -/
theorem constraint_violation_translation
    (error_msg : String) (p : ProductCreateInput) (product_id : Int) (u : ProductUpdate) :
    (containsSub error_msg "AK_Product_Name" = true →
      (createIntegrityHandler p error_msg).1 =
        .conflict ("A product with the name " ++ squo ++ p.Name ++ squo ++ " already exists.") ∧
      (updateIntegrityHandler product_id u error_msg).1 =
        .conflict ("A product with the name " ++ squo ++ pyStr u.Name ++ squo
          ++ " already exists.")) ∧
    (containsSub error_msg "AK_Product_Name" = false →
     containsSub error_msg "AK_Product_ProductNumber" = true →
      (createIntegrityHandler p error_msg).1 =
        .conflict ("A product with the product number " ++ squo ++ p.ProductNumber ++ squo
          ++ " already exists.") ∧
      (updateIntegrityHandler product_id u error_msg).1 =
        .conflict ("A product with the product number " ++ squo ++ pyStr u.ProductNumber ++ squo
          ++ " already exists.")) ∧
    (containsSub error_msg "AK_Product_Name" = false →
     containsSub error_msg "AK_Product_ProductNumber" = false →
      createIntegrityHandler p error_msg =
        (.internal "An unexpected database constraint violation occurred.",
         { level := "error"
           message := "Unexpected database constraint violation while creating product: "
             ++ error_msg
           context := [("product_data", .createPayload p),
                       ("error_type", .str "unknown_constraint"),
                       ("error_details", .str error_msg)] }) ∧
      updateIntegrityHandler product_id u error_msg =
        (.internal "An unexpected database constraint violation occurred.",
         { level := "error"
           message := "Unexpected constraint violation while updating product "
             ++ toString product_id ++ ": " ++ error_msg
           context := [("product_id", .int product_id),
                       ("update_data", .updatePayload u),
                       ("error_type", .str "unknown_constraint"),
                       ("error_details", .str error_msg)] })) := by
  refine ⟨fun h1 => ?_, fun h1 h2 => ?_, fun h1 h2 => ?_⟩
  · constructor <;> simp [createIntegrityHandler, updateIntegrityHandler, h1]
  · constructor <;> simp [createIntegrityHandler, updateIntegrityHandler, h1, h2]
  · constructor <;> simp [createIntegrityHandler, updateIntegrityHandler, h1, h2]

/-- The validated form of the sample create payload: only `Weight` is
normalized. -/
def sampleValidated : ProductCreateInput :=
  { sampleCreate with Weight := validate_weight sampleCreate.Weight }

/-- The row stored by creating `sampleCreate` against `sampleDB`. -/
def sampleCreated : Product :=
  match (create_product sampleDB sampleCreate 2 "guid-2" 7).1 with
  | .created p => p
  | _ => sampleProduct

/-- The row stored by updating product 1 of `sampleDB` with a
101-character name. -/
def sampleUpdated : Product :=
  match (update_product sampleDB 1 { Name := some longName } 5).1 with
  | .ok q => q
  | _ => sampleProduct

/-- Witness for C4: with one dependent order line the delete of product 1
is the 409 conflict and the store is unchanged; with zero dependent lines
it succeeds and the row is gone. -/
theorem delete_blocked_by_dependent_orders_witness :
    delete_product sampleDBDep 1 =
      (.err (.conflict "Cannot delete product as it has associated sales orders"), sampleDBDep) ∧
    ((delete_product sampleDB 1).1 = .noContent ∧
     (delete_product sampleDB 1).2.products =
       sampleDB.products.filter (fun q => q.ProductID != 1) ∧
     (delete_product sampleDB 1).2.products.find? (fun q => q.ProductID == 1) = none) :=
  ⟨(delete_blocked_by_dependent_orders sampleDBDep 1 sampleProduct rfl).1 (by decide),
   (delete_blocked_by_dependent_orders sampleDB 1 sampleProduct rfl).2 rfl⟩

/-- Witness for C5: the empty-payload update of product 1 at clock 5
succeeds, replaces only that row, and only its `ModifiedDate` changes. -/
theorem empty_update_changes_only_modified_date_witness :
    (update_product sampleDB 1 ProductUpdate.empty 5).1 =
      .ok { sampleProduct with ModifiedDate := 5 } ∧
    (update_product sampleDB 1 ProductUpdate.empty 5).2.products =
      sampleDB.products.map
        (fun q => if q.ProductID == sampleProduct.ProductID then
          { sampleProduct with ModifiedDate := 5 } else q) ∧
    ({ sampleProduct with ModifiedDate := 5 } : Product).ProductID = sampleProduct.ProductID ∧
    ({ sampleProduct with ModifiedDate := 5 } : Product).Name = sampleProduct.Name ∧
    ({ sampleProduct with ModifiedDate := 5 } : Product).ProductNumber = sampleProduct.ProductNumber ∧
    ({ sampleProduct with ModifiedDate := 5 } : Product).Color = sampleProduct.Color ∧
    ({ sampleProduct with ModifiedDate := 5 } : Product).StandardCost = sampleProduct.StandardCost ∧
    ({ sampleProduct with ModifiedDate := 5 } : Product).ListPrice = sampleProduct.ListPrice ∧
    ({ sampleProduct with ModifiedDate := 5 } : Product).Size = sampleProduct.Size ∧
    ({ sampleProduct with ModifiedDate := 5 } : Product).Weight = sampleProduct.Weight ∧
    ({ sampleProduct with ModifiedDate := 5 } : Product).SellStartDate = sampleProduct.SellStartDate ∧
    ({ sampleProduct with ModifiedDate := 5 } : Product).SellEndDate = sampleProduct.SellEndDate ∧
    ({ sampleProduct with ModifiedDate := 5 } : Product).DiscontinuedDate = sampleProduct.DiscontinuedDate ∧
    ({ sampleProduct with ModifiedDate := 5 } : Product).ThumbNailPhoto = sampleProduct.ThumbNailPhoto ∧
    ({ sampleProduct with ModifiedDate := 5 } : Product).ThumbnailPhotoFileName = sampleProduct.ThumbnailPhotoFileName ∧
    ({ sampleProduct with ModifiedDate := 5 } : Product).ProductModelID = sampleProduct.ProductModelID ∧
    ({ sampleProduct with ModifiedDate := 5 } : Product).ProductCategoryID = sampleProduct.ProductCategoryID ∧
    ({ sampleProduct with ModifiedDate := 5 } : Product).rowguid = sampleProduct.rowguid ∧
    ({ sampleProduct with ModifiedDate := 5 } : Product).ModifiedDate = 5 :=
  empty_update_changes_only_modified_date sampleDB 1 5 sampleProduct rfl
    (by simp [DB.Consistent, sampleDB])

/-- Witness for C6: an update supplying a new name leaves the identity
and rowguid column unchanged, and the created sample row carries the
supplied guid and identity. -/
theorem product_id_rowguid_immutable_witness :
    ((update_product sampleDB 1 { Name := some "Other" } 5).2.products.map
        (fun q => (q.ProductID, q.rowguid)) =
      sampleDB.products.map (fun q => (q.ProductID, q.rowguid))) ∧
    (sampleCreated.rowguid = "guid-2" ∧ sampleCreated.ProductID = 2) := by
  have h := product_id_rowguid_immutable sampleDB 1 5 2 7 { Name := some "Other" }
    sampleCreate "guid-2" (by simp [DB.UniqueIDs, sampleDB])
  exact ⟨h.1, h.2 sampleCreated rfl⟩

/-- Witness for C10: an update supplying a name and a weight leaves the
thumbnail columns unchanged. -/
theorem update_preserves_thumbnails_witness :
    (update_product sampleDB 1 { Name := some "Other", Weight := some (some ⟨1, 0⟩) } 9).2.products.map
        (fun q => (q.ThumbNailPhoto, q.ThumbnailPhotoFileName)) =
      sampleDB.products.map (fun q => (q.ThumbNailPhoto, q.ThumbnailPhotoFileName)) :=
  update_preserves_thumbnails sampleDB 1 9 { Name := some "Other", Weight := some (some ⟨1, 0⟩) }
    (by simp [DB.UniqueIDs, sampleDB])

/-- Witness for the amended C1: the validated sample payload obeys the
name bound and has its weight normalized, while the update that supplied
the 101-character name stored it verbatim and left the weight untouched. -/
theorem validation_applies_only_on_create_witness :
    sampleValidated.Name.length ≤ 100 ∧
    sampleValidated.Weight = validate_weight sampleCreate.Weight ∧
    sampleUpdated.Name = longName ∧
    sampleUpdated.Weight = sampleProduct.Weight := by
  have h := validation_applies_only_on_create sampleCreate sampleValidated sampleDB 1 5
    { Name := some longName } sampleProduct rfl rfl
  exact ⟨h.1.1, h.1.2.2.2.2, (h.2 sampleUpdated rfl).1, (h.2 sampleUpdated rfl).2.2.2.1⟩

/-- Witness for C2: the three classifications at concrete raw store
messages, one per constraint identifier. -/
theorem constraint_violation_translation_witness :
    ((createIntegrityHandler sampleCreate "Violation of UNIQUE KEY constraint AK_Product_Name").1 =
      .conflict ("A product with the name " ++ squo ++ sampleCreate.Name ++ squo
        ++ " already exists.")) ∧
    ((updateIntegrityHandler 1 ProductUpdate.empty
        "Violation of UNIQUE KEY constraint AK_Product_ProductNumber").1 =
      .conflict ("A product with the product number " ++ squo
        ++ pyStr ProductUpdate.empty.ProductNumber ++ squo ++ " already exists.")) ∧
    (createIntegrityHandler sampleCreate "CK_Product_ListPrice check failed" =
      (.internal "An unexpected database constraint violation occurred.",
       { level := "error"
         message := "Unexpected database constraint violation while creating product: CK_Product_ListPrice check failed"
         context := [("product_data", .createPayload sampleCreate),
                     ("error_type", .str "unknown_constraint"),
                     ("error_details", .str "CK_Product_ListPrice check failed")] })) := by
  have ha := constraint_violation_translation "Violation of UNIQUE KEY constraint AK_Product_Name"
    sampleCreate 1 ProductUpdate.empty
  have hb := constraint_violation_translation
    "Violation of UNIQUE KEY constraint AK_Product_ProductNumber"
    sampleCreate 1 ProductUpdate.empty
  have hc := constraint_violation_translation "CK_Product_ListPrice check failed"
    sampleCreate 1 ProductUpdate.empty
  exact ⟨(ha.1 (by decide)).1, (hb.2.1 (by decide) (by decide)).2,
    (hc.2.2 (by decide) (by decide)).1⟩
